import Mathlib

/-!
Shallow embedding of the extraction-and-validation core of the
streamlit order-extraction app (`src/app.py`, `src/models.py`).

The layout tree produced by the external document parser is modelled by
`DoclingDict` (the dictionary shape of `result.document.export_to_dict()`
that `build_order_model` consumes): an ordered list of text nodes, each
carrying an optional `self_ref` identifier and a `text` payload, and an
ordered list of tables, each exposing a `grid` of rows of cells.

A grid cell in the source is a JSON object that is expected to carry a
string under the key `"text"`.  `Cell.text = some (some s)` models a cell
whose `"text"` entry is the string `s`; `Cell.text = some none` models an
object whose `"text"` entry is present but is not a string; `Cell.text =
none` models an object without a `"text"` entry (for
`get_first_non_matching_value`, whose `isinstance(col, dict)` guard also
skips non-dictionary entries, that case is collapsed into this one).

Fallible Python code is modelled with `Except`:
`BuildError.indexOutOfRange` stands for the `IndexError` raised by a list
subscript on a missing position, and `BuildError.validationError` for the
pydantic `ValidationError` raised when a required (non-optional) model
field receives `None`.  `StrAttrError.attributeError` stands for the
`AttributeError` raised by calling `.strip()` on a non-string value.

`datetime.now()` is modelled by threading the value of
`datetime.now().isoformat()` into `build_order_model` as the explicit
argument `now`; the external permissive date parser
(`dateutil.parser.parse`) is threaded as an explicit `parse` argument,
with `parseISO` below as an executable instance of it.
-/

namespace OrderExtract

/-- One entry of `data["texts"]`: a docling text node with its stable
`self_ref` identifier and its `text` payload. -/
structure TextItem where
  self_ref : Option String
  text : String
deriving DecidableEq, Repr

/-- One grid cell of a docling table (see the module docstring for the
encoding of missing / non-string `"text"` entries). -/
structure Cell where
  text : Option (Option String)
deriving DecidableEq, Repr

/-- A cell whose `"text"` entry is the string `s`. -/
def Cell.ofString (s : String) : Cell := ⟨some (some s)⟩

/-- One entry of `data["tables"]`: only the `["data"]["grid"]` component is
consumed by the builder. -/
structure TableData where
  grid : List (List Cell)
deriving DecidableEq, Repr

/-- The dictionary produced by `result.document.export_to_dict()` as far as
`build_order_model` reads it. -/
structure DoclingDict where
  texts : List TextItem
  tables : List TableData
deriving DecidableEq, Repr

/-- Failure of `build_order_model`: a Python `IndexError` on a hardcoded
table/row position, or a pydantic `ValidationError` from a model
constructor. -/
inductive BuildError where
  | indexOutOfRange
  | validationError
deriving DecidableEq, Repr

/-- The Python `AttributeError` raised by `value.strip()` when `value` is
not a string. -/
inductive StrAttrError where
  | attributeError
deriving DecidableEq, Repr

/-- A calendar date as produced by the external date parser. -/
structure Date where
  year : Nat
  month : Nat
  day : Nat
deriving DecidableEq, Repr

/- ----------------------------------------------------------------
   Domain model (src/models.py).  pydantic required/optional fields are
   mirrored by plain vs `Option` types; optional fields keep their
   `None` defaults.
   ---------------------------------------------------------------- -/

inductive ActivityEnum where
  | Collection
  | Delivery
deriving DecidableEq, Repr

inductive ColorEnum where
  | Unknown
  | Black
  | White
  | Grey
  | Blue
  | Red
  | Yellow
  | Green
  | Brown
deriving DecidableEq, Repr

structure Address where
  address_name : Option String := none
  street : String
  city : Option String := none
  province : String
  postal_code : String
deriving DecidableEq, Repr

structure Contact where
  contact_person : Option String := none
  phone : Option String := none
deriving DecidableEq, Repr

structure Vehicle where
  license_plate : String
  vin : Option String := none
  make : String
  model : Option String := none
  color : Option ColorEnum := none
  release_id : Option String := none
  weight : Option Float := none
  volume : Option Float := none
  activity : Option ActivityEnum := none
deriving Repr

structure StopInfo where
  stop_number : Int
  address : Address
  contact : Option Contact := none
  vehicles : List Vehicle
  comments : Option String := none
deriving Repr

structure Header where
  company_name : Option String := none
  customer_code : Option String := none
  shipment_id : String
  available_at : String
  delivery_requested_at : String
  sender_email : Option String := none
  number_of_stops : Int
  number_of_vehicles : Int
deriving Repr

structure Order where
  header : Header
  stops : List StopInfo
deriving Repr

/- ----------------------------------------------------------------
   Python string primitives.  They are implemented over `List Char`
   (Lean's own `String.trim`-style functions are defined by well-founded
   recursion over byte positions and do not reduce inside the kernel,
   which would bar concrete evaluation).  Like Python, they count in
   characters, not bytes.
   ---------------------------------------------------------------- -/

/-- Drop leading whitespace characters. -/
def dropLeadingSpaces : List Char → List Char
  | [] => []
  | c :: cs => if c.isWhitespace then dropLeadingSpaces cs else c :: cs

/-- Python `str.lstrip()`. -/
def pyLStrip (s : String) : String :=
  ⟨dropLeadingSpaces s.data⟩

/-- Python `str.strip()`. -/
def pyStrip (s : String) : String :=
  ⟨dropLeadingSpaces (dropLeadingSpaces s.data.reverse).reverse⟩

/-- Python `str.upper()` (ASCII range, which covers every label the
builder passes in). -/
def pyUpper (s : String) : String :=
  ⟨s.data.map Char.toUpper⟩

/-- Python `s.startswith(pre)`. -/
def pyStartsWith (s pre : String) : Bool :=
  pre.data.isPrefixOf s.data

/-- Python `s[n:]` (character count). -/
def pyDrop (s : String) (n : Nat) : String :=
  ⟨s.data.drop n⟩

/-- Python `len(s)` (character count). -/
def pyLen (s : String) : Nat :=
  s.data.length

/-- Python `sep.join(parts)`. -/
def pyJoin (sep : String) : List String → String
  | [] => ""
  | [s] => s
  | s :: rest => s ++ sep ++ pyJoin sep rest

/- ----------------------------------------------------------------
   Field extractors (src/app.py lines 48-120).
   ---------------------------------------------------------------- -/

/-- `get_first_non_matching_value(columns, exclude_value)` (app.py:48-61):
scans the row left to right; a cell contributes only when it is a
dictionary with a string under `"text"` whose `strip()` is non-empty and
whose raw value differs from `exclude_value`; the first such raw value is
returned, else `None`. -/
def get_first_non_matching_value : List Cell → String → Option String
  | [], _ => none
  | col :: rest, exclude_value =>
    match col.text with
    | some (some value) =>
      if pyStrip value ≠ "" ∧ value ≠ exclude_value then some value
      else get_first_non_matching_value rest exclude_value
    | _ => get_first_non_matching_value rest exclude_value

/-- The regular expression `\d{4,5}` fully matching `w` (app.py:76). -/
def is_postal_code_format (w : String) : Bool :=
  (pyLen w == 4 || pyLen w == 5) && w.data.all Char.isDigit

/-- `get_first_word(text)` (app.py:63-79): `""` for `None` / blank input;
otherwise the first whitespace-delimited word (`text.split()[0]`) when it
fully matches `\d{4,5}`, else the original text. -/
def get_first_word (text : Option String) : String :=
  match text with
  | none => ""
  | some t =>
    if pyStrip t = "" then ""
    else
      let first_word : String := ⟨(dropLeadingSpaces t.data).takeWhile (fun c => !c.isWhitespace)⟩
      if is_postal_code_format first_word then first_word else t

/-- `remove_substring_if_found(substring, main_string)` (app.py:81-101):
`None` inputs degrade to `""` / empty result; both strings are stripped,
and when the upper-cased main string starts with the upper-cased
substring, that many leading characters are dropped and leftover leading
whitespace removed. -/
def remove_substring_if_found (substring main_string : Option String) : String :=
  let sub := pyStrip (substring.getD "")
  match main_string with
  | none => ""
  | some m0 =>
    let m := pyStrip m0
    if pyStartsWith (pyUpper m) (pyUpper sub) then pyLStrip (pyDrop m (pyLen sub))
    else m

/-- The generator inside `concatenate_text_from_index` (app.py:111): walks
the objects, skips those without a `"text"` entry and those whose string is
blank, collects the rest, and raises `AttributeError` (modelled as
`Except.error`) on the first `"text"` entry that is not a string. -/
def concatenate_items : List Cell → Except StrAttrError (List String)
  | [] => Except.ok []
  | c :: cs =>
    match c.text with
    | none => concatenate_items cs
    | some none => Except.error StrAttrError.attributeError
    | some (some s) =>
      if pyStrip s ≠ "" then
        match concatenate_items cs with
        | Except.ok rest => Except.ok (s :: rest)
        | Except.error e => Except.error e
      else concatenate_items cs

/-- `concatenate_text_from_index(objects_list, start_index=11)`
(app.py:103-111): joins with `"\n"` the non-blank `"text"` strings from
`start_index` on. -/
def concatenate_text_from_index (objects_list : List Cell) (start_index : Nat := 11) :
    Except StrAttrError String :=
  match concatenate_items (objects_list.drop start_index) with
  | Except.ok parts => Except.ok (pyJoin "\n" parts)
  | Except.error e => Except.error e

/-- `%d`-style two-digit zero padding used by `strftime`. -/
def pad2 (n : Nat) : String :=
  if n < 10 then "0" ++ toString n else toString n

/-- `%Y`-style four-digit zero padding used by `strftime`. -/
def pad4 (n : Nat) : String :=
  if n < 10 then "000" ++ toString n
  else if n < 100 then "00" ++ toString n
  else if n < 1000 then "0" ++ toString n
  else toString n

/-- `datetime.strftime("%d/%m/%Y")` on a parsed date. -/
def strftime_ddmmyyyy (d : Date) : String :=
  pad2 d.day ++ "/" ++ pad2 d.month ++ "/" ++ pad4 d.year

/-- `format_date(value)` (app.py:113-120): falsy input (`None`, `""`) is
returned as is; otherwise the external parser (`parse` argument) is tried
and its result rendered as `DD/MM/YYYY`, parse failure returning the input
unchanged. -/
def format_date (parse : String → Option Date) (value : Option String) : Option String :=
  match value with
  | none => none
  | some v =>
    if v = "" then some v
    else
      match parse v with
      | some d => some (strftime_ddmmyyyy d)
      | none => some v

/-- Split a character list at every occurrence of `sep`. -/
def splitOnChar (sep : Char) : List Char → List (List Char)
  | [] => [[]]
  | c :: cs =>
    let r := splitOnChar sep cs
    if c = sep then [] :: r
    else
      match r with
      | h :: t => (c :: h) :: t
      | [] => [[c]]

/-- Decimal value of a digit-character list. -/
def digitsToNat (l : List Char) : Nat :=
  l.foldl (fun n c => n * 10 + (c.toNat - 48)) 0

/-- Modelled from the spec: the external permissive date parser
(`dateutil.parser.parse`), which is third-party library code not present
in this repository.  It is restricted here to ISO-8601
`YYYY-MM-DDTHH:MM:SS` timestamps — the only shape the spec's examples
exercise — every other input being a parse failure. -/
def parseISO (raw : String) : Option Date :=
  let datePart := raw.data.takeWhile (fun c => c != 'T')
  match splitOnChar '-' datePart with
  | [y, m, d] =>
    if y.length = 4 ∧ m.length = 2 ∧ d.length = 2
        ∧ (y ++ m ++ d).all Char.isDigit then
      let mn := digitsToNat m
      let dn := digitsToNat d
      if 1 ≤ mn ∧ mn ≤ 12 ∧ 1 ≤ dn ∧ dn ≤ 31 then
        some ⟨digitsToNat y, mn, dn⟩
      else none
    else none
  | _ => none

/- ----------------------------------------------------------------
   Record builder (src/app.py lines 122-200).
   ---------------------------------------------------------------- -/

/-- Python list subscript `l[i]`: the element, or `IndexError`. -/
def pyIndex {α : Type} (l : List α) (i : Nat) : Except BuildError α :=
  match l.get? i with
  | some x => Except.ok x
  | none => Except.error BuildError.indexOutOfRange

/-- Python `x or d` for `x : str | None`: `d` when `x` is `None` or `""`. -/
def pyOr (v : Option String) (d : String) : String :=
  match v with
  | some s => if s = "" then d else s
  | none => d

/-- Python `s or d` for `s : str`: `d` when `s` is `""`. -/
def pyOrStr (s d : String) : String :=
  if s = "" then d else s

/-- `next((item["text"] for item in texts if item.get("self_ref") == ref), None)`
(app.py:126-127): text of the first node carrying the identifier. -/
def lookup_text (texts : List TextItem) (ref : String) : Option String :=
  (texts.find? fun it => it.self_ref == some ref).map TextItem.text

/-- The three vehicle scalars pulled from `tables[0]` (app.py:129-134). -/
structure VehicleFields where
  carplate : Option String
  make : String
  model : String
deriving DecidableEq, Repr

/-- app.py:129-134: carplate, make and model from rows 0-2 of
`tables[0]`'s grid, with label stripping and the unconditional
strip-make-from-model step. -/
def extract_vehicle_fields (tables : List TableData) : Except BuildError VehicleFields :=
  match pyIndex tables 0 with
  | Except.error e => Except.error e
  | Except.ok t0 =>
    match pyIndex t0.grid 0 with
    | Except.error e => Except.error e
    | Except.ok row0 =>
      let carplate := get_first_non_matching_value row0 "Matrícula / Bastidor:"
      match pyIndex t0.grid 1 with
      | Except.error e => Except.error e
      | Except.ok row1 =>
        let make := remove_substring_if_found (some "Marca:")
          (get_first_non_matching_value row1 "Marca:")
        match pyIndex t0.grid 2 with
        | Except.error e => Except.error e
        | Except.ok row2 =>
          let model := remove_substring_if_found (some "Modelo:")
            (get_first_non_matching_value row2 "Modelo:")
          Except.ok { carplate := carplate, make := make,
                      model := remove_substring_if_found (some make) (some model) }

/-- The per-stop data pulled from `tables[1]` / `tables[2]` (app.py:136-164;
the two blocks are identical up to the row-0 point label). -/
structure StopFields where
  address : Address
  contact : Contact
  comments : String
deriving DecidableEq, Repr

/-- app.py:136-164: one stop's address, contact and comments from a
7-row grid.  Rows are read in the source's evaluation order (0, 2, 4, 3,
then the `Address` constructor validates, then 1, 5, 6); a `None` street
or province makes the pydantic `Address` constructor raise. -/
def extract_stop_fields (grid : List (List Cell)) (point_label : String) :
    Except BuildError StopFields :=
  match pyIndex grid 0 with
  | Except.error e => Except.error e
  | Except.ok g0 =>
    let address_name := get_first_non_matching_value g0 point_label
    match pyIndex grid 2 with
    | Except.error e => Except.error e
    | Except.ok g2 =>
      let street? := get_first_non_matching_value g2 "Dirección:"
      match pyIndex grid 4 with
      | Except.error e => Except.error e
      | Except.ok g4 =>
        let province? := get_first_non_matching_value g4 "Provincia:"
        match pyIndex grid 3 with
        | Except.error e => Except.error e
        | Except.ok g3 =>
          let postal_code := get_first_word (get_first_non_matching_value g3 "Código Postal:")
          match street?, province? with
          | some street, some province =>
            let address : Address :=
              { address_name := address_name, street := street, city := none,
                province := province, postal_code := postal_code }
            match pyIndex grid 1 with
            | Except.error e => Except.error e
            | Except.ok g1 =>
              let contact_person := get_first_non_matching_value g1 "Persona de Contacto:"
              match pyIndex grid 5 with
              | Except.error e => Except.error e
              | Except.ok g5 =>
                let phone := get_first_non_matching_value g5 "Teléfono de Contacto:"
                match pyIndex grid 6 with
                | Except.error e => Except.error e
                | Except.ok g6 =>
                  let comments := remove_substring_if_found (some "Observaciones:")
                    (get_first_non_matching_value g6 "Observaciones:")
                  Except.ok { address := address,
                              contact := { contact_person := contact_person, phone := phone },
                              comments := comments }
          | _, _ => Except.error BuildError.validationError

/-- `build_order_model(data)` (app.py:122-200).  `parse` is the external
date parser and `now` the value of `datetime.now().isoformat()`. -/
def build_order_model (parse : String → Option Date) (now : String)
    (data : DoclingDict) : Except BuildError Order :=
  let external_id := lookup_text data.texts "#/texts/5"
  let delivery_requested_at := lookup_text data.texts "#/texts/6"
  match extract_vehicle_fields data.tables with
  | Except.error e => Except.error e
  | Except.ok vf =>
    match pyIndex data.tables 1 with
    | Except.error e => Except.error e
    | Except.ok t1 =>
      match extract_stop_fields t1.grid "Punto de Recogida:" with
      | Except.error e => Except.error e
      | Except.ok origin =>
        match pyIndex data.tables 2 with
        | Except.error e => Except.error e
        | Except.ok t2 =>
          match extract_stop_fields t2.grid "Punto de Entrega:" with
          | Except.error e => Except.error e
          | Except.ok destination =>
            let vehicles_origin : List Vehicle :=
              [{ license_plate := pyOr vf.carplate "UNKNOWN",
                 make := pyOrStr vf.make "UNKNOWN",
                 model := some vf.model,
                 activity := some ActivityEnum.Collection }]
            let vehicles_destination : List Vehicle :=
              [{ license_plate := pyOr vf.carplate "UNKNOWN",
                 make := pyOrStr vf.make "UNKNOWN",
                 model := some vf.model,
                 activity := some ActivityEnum.Delivery }]
            let stops : List StopInfo :=
              [{ stop_number := 1, address := origin.address,
                 contact := some origin.contact, vehicles := vehicles_origin,
                 comments := some origin.comments },
               { stop_number := 2, address := destination.address,
                 contact := some destination.contact, vehicles := vehicles_destination,
                 comments := some destination.comments }]
            match format_date parse delivery_requested_at with
            | none => Except.error BuildError.validationError
            | some dra =>
              Except.ok
                { header :=
                    { company_name := some "SEMAT", customer_code := none,
                      shipment_id := pyOr external_id "UNKNOWN",
                      available_at := (format_date parse (some now)).getD "",
                      delivery_requested_at := dra,
                      sender_email := none,
                      number_of_stops := stops.length,
                      number_of_vehicles := vehicles_origin.length },
                  stops := stops }

/- ----------------------------------------------------------------
   Concrete sample documents (used by the closed witness statements).
   ---------------------------------------------------------------- -/

/-- A vehicle-data table matching the template's `tables[0]`. -/
def sampleTable0 : TableData :=
  { grid :=
      [[Cell.ofString "Matrícula / Bastidor:", Cell.ofString "1234ABC"],
       [Cell.ofString "Marca:", Cell.ofString "HYUNDAI"],
       [Cell.ofString "Modelo:", Cell.ofString "HYUNDAI I30"]] }

/-- An origin-stop table matching the template's `tables[1]`. -/
def sampleTable1 : TableData :=
  { grid :=
      [[Cell.ofString "Punto de Recogida:", Cell.ofString "Origin SA"],
       [Cell.ofString "Persona de Contacto:", Cell.ofString "Ana"],
       [Cell.ofString "Dirección:", Cell.ofString "Calle A 1"],
       [Cell.ofString "Código Postal:", Cell.ofString "28050 Madrid"],
       [Cell.ofString "Provincia:", Cell.ofString "Madrid"],
       [Cell.ofString "Teléfono de Contacto:", Cell.ofString "600111222"],
       [Cell.ofString "Observaciones:", Cell.ofString "Observaciones: ninguna"]] }

/-- A destination-stop table matching the template's `tables[2]`. -/
def sampleTable2 : TableData :=
  { grid :=
      [[Cell.ofString "Punto de Entrega:", Cell.ofString "Dest SL"],
       [Cell.ofString "Persona de Contacto:", Cell.ofString "Luis"],
       [Cell.ofString "Dirección:", Cell.ofString "Calle B 2"],
       [Cell.ofString "Código Postal:", Cell.ofString "08001 Barcelona"],
       [Cell.ofString "Provincia:", Cell.ofString "Barcelona"],
       [Cell.ofString "Teléfono de Contacto:", Cell.ofString "930222333"],
       [Cell.ofString "Observaciones:", Cell.ofString "Observaciones: fragil"]] }

/-- The `datetime.now().isoformat()` value used by the witnesses. -/
def sampleNow : String := "2024-07-31T10:00:00"

/-- A complete template-conforming document. -/
def sampleDoc : DoclingDict :=
  { texts :=
      [{ self_ref := some "#/texts/5", text := "250123" },
       { self_ref := some "#/texts/6", text := "2024-07-31T10:00:00" }],
    tables := [sampleTable0, sampleTable1, sampleTable2] }

/-- `sampleDocNo5` with the `#/texts/5` node removed. -/
def sampleDocNo5 : DoclingDict :=
  { texts := [{ self_ref := some "#/texts/6", text := "2024-07-31T10:00:00" }],
    tables := [sampleTable0, sampleTable1, sampleTable2] }

/-- `sampleDoc.texts` with its two nodes transposed (identifiers kept). -/
def sampleTextsPerm : List TextItem :=
  [{ self_ref := some "#/texts/6", text := "2024-07-31T10:00:00" },
   { self_ref := some "#/texts/5", text := "250123" }]

/-- The single vehicle the builder derives from `sampleTable0`. -/
def sampleVehicle (a : ActivityEnum) : Vehicle :=
  { license_plate := "1234ABC", make := "HYUNDAI", model := some "I30", activity := some a }

/-- The two stops the builder derives from `sampleTable1` / `sampleTable2`. -/
def sampleStops : List StopInfo :=
  [{ stop_number := 1,
     address := { address_name := some "Origin SA", street := "Calle A 1", city := none,
                  province := "Madrid", postal_code := "28050" },
     contact := some { contact_person := some "Ana", phone := some "600111222" },
     vehicles := [sampleVehicle ActivityEnum.Collection],
     comments := some "ninguna" },
   { stop_number := 2,
     address := { address_name := some "Dest SL", street := "Calle B 2", city := none,
                  province := "Barcelona", postal_code := "08001" },
     contact := some { contact_person := some "Luis", phone := some "930222333" },
     vehicles := [sampleVehicle ActivityEnum.Delivery],
     comments := some "fragil" }]

/-- The order the builder produces from `sampleDoc`. -/
def sampleOrder : Order :=
  { header := { company_name := some "SEMAT", customer_code := none,
                shipment_id := "250123", available_at := "31/07/2024",
                delivery_requested_at := "31/07/2024", sender_email := none,
                number_of_stops := 2, number_of_vehicles := 1 },
    stops := sampleStops }

/-- The order the builder produces from `sampleDocNo5`. -/
def sampleOrderNo5 : Order :=
  { header := { company_name := some "SEMAT", customer_code := none,
                shipment_id := "UNKNOWN", available_at := "31/07/2024",
                delivery_requested_at := "31/07/2024", sender_email := none,
                number_of_stops := 2, number_of_vehicles := 1 },
    stops := sampleStops }

/- ----------------------------------------------------------------
   Specification predicates used by the theorems.
   ---------------------------------------------------------------- -/

/-- A cell `get_first_non_matching_value` accepts: its `"text"` entry is a
string whose `strip()` is non-empty and whose raw value is not the
exclude label. -/
def cellQualifies (c : Cell) (L : String) : Prop :=
  match c.text with
  | some (some v) => pyStrip v ≠ "" ∧ v ≠ L
  | _ => False

instance (c : Cell) (L : String) : Decidable (cellQualifies c L) :=
  match c with
  | ⟨some (some v)⟩ => inferInstanceAs (Decidable (pyStrip v ≠ "" ∧ v ≠ L))
  | ⟨some none⟩ => isFalse (fun h => h)
  | ⟨none⟩ => isFalse (fun h => h)

/-- Blank out the call-time `available_at` timestamp, leaving every other
field intact. -/
def eraseAvailableAt (o : Order) : Order :=
  { o with header := { o.header with available_at := "" } }

/- ----------------------------------------------------------------
   Theorems.
   ---------------------------------------------------------------- -/

lemma cellQualifies_iff (c : Cell) (L : String) :
    cellQualifies c L ↔ ∃ v, c.text = some (some v) ∧ pyStrip v ≠ "" ∧ v ≠ L := by
  rcases c with ⟨_ | (_ | v)⟩ <;> simp [cellQualifies]

lemma gfnmv_cons_skip {c : Cell} {L : String} (h : ¬ cellQualifies c L) (cs : List Cell) :
    get_first_non_matching_value (c :: cs) L = get_first_non_matching_value cs L := by
  rcases hct : c.text with _ | (_ | v)
  · simp [get_first_non_matching_value, hct]
  · simp [get_first_non_matching_value, hct]
  · have hn : ¬ (pyStrip v ≠ "" ∧ v ≠ L) := by
      intro hv
      exact h ((cellQualifies_iff c L).mpr ⟨v, hct, hv⟩)
    simp [get_first_non_matching_value, hct, hn]

lemma gfnmv_cons_hit {c : Cell} {L : String} {v : String} (hct : c.text = some (some v))
    (hv : pyStrip v ≠ "" ∧ v ≠ L) (cs : List Cell) :
    get_first_non_matching_value (c :: cs) L = some v := by
  simp [get_first_non_matching_value, hct, hv.1, hv.2]

/-- C1 (amended).  `get_first_non_matching_value` returns `None` iff every
cell of the row is skipped — i.e., lacks a string `"text"`, has
whitespace-only text, or has RAW text exactly equal to the exclude label —
and otherwise returns the raw text of the first cell whose stripped text
is non-empty and whose raw (not stripped) text differs from the label.
(The original claim compared the TRIMMED text against the label; the code
compares the raw text, see the counterexample.) -/
theorem spec_C1_amended (row : List Cell) (L : String) :
    (get_first_non_matching_value row L = none ↔ ∀ c ∈ row, ¬ cellQualifies c L) ∧
    (∀ v, get_first_non_matching_value row L = some v →
      pyStrip v ≠ "" ∧ v ≠ L ∧
      ∃ pre c post, row = pre ++ c :: post ∧ c.text = some (some v) ∧
        ∀ c' ∈ pre, ¬ cellQualifies c' L) := by
  induction row with
  | nil =>
    refine ⟨by simp [get_first_non_matching_value], ?_⟩
    intro v hv
    exact Option.noConfusion hv
  | cons c cs ih =>
    by_cases hq : cellQualifies c L
    · obtain ⟨v0, hct, hcond⟩ := (cellQualifies_iff c L).mp hq
      have hg := gfnmv_cons_hit hct hcond cs
      refine ⟨⟨fun h => ?_, fun h => ?_⟩, ?_⟩
      · rw [hg] at h
        exact Option.noConfusion h
      · exact absurd hq (h c (List.mem_cons_self c cs))
      · intro v hv
        rw [hg] at hv
        obtain rfl : v0 = v := by injection hv
        exact ⟨hcond.1, hcond.2, [], c, cs, rfl, hct, by simp⟩
    · have hg := gfnmv_cons_skip hq cs
      refine ⟨?_, ?_⟩
      · rw [hg, ih.1]
        constructor
        · intro h c' hc'
          rcases List.mem_cons.mp hc' with rfl | hmem
          · exact hq
          · exact h c' hmem
        · intro h c' hc'
          exact h c' (List.mem_cons_of_mem c hc')
      · intro v hv
        rw [hg] at hv
        obtain ⟨h1, h2, pre, c0, post, hrow, htext, hpre⟩ := ih.2 v hv
        refine ⟨h1, h2, c :: pre, c0, post, by simp [hrow], htext, ?_⟩
        intro c' hc'
        rcases List.mem_cons.mp hc' with rfl | hmem
        · exact hq
        · exact hpre c' hmem

/-- C1 counterexample to the claim as stated: on the row whose only cell
reads `" Marca: "` with exclude label `"Marca:"`, the function returns
that cell even though its trimmed text is identical to the label (the
code compares the raw, untrimmed value against the label). -/
theorem spec_C1_counterexample :
    get_first_non_matching_value [⟨some (some " Marca: ")⟩] "Marca:" = some " Marca: " ∧
    pyStrip " Marca: " = "Marca:" ∧ pyStrip " Marca: " ≠ "" := by
  decide

/-- C1 witness: the amended characterization applied to a concrete row
whose cells are all blank or equal to the label. -/
theorem spec_C1_witness :
    get_first_non_matching_value [⟨some (some "  ")⟩, ⟨some (some "Marca:")⟩] "Marca:" = none :=
  (spec_C1_amended [⟨some (some "  ")⟩, ⟨some (some "Marca:")⟩] "Marca:").1.mpr (by decide)

/-- C5: `format_date` reformats to `DD/MM/YYYY` whenever the external
parser accepts the input, and passes the raw string through unchanged
(never failing) whenever the parser rejects it; in particular the two
spec examples hold under the modelled ISO parser. -/
theorem spec_C5 :
    (∀ (parse : String → Option Date) (raw : String),
        parse raw = none → format_date parse (some raw) = some raw) ∧
    (∀ (parse : String → Option Date) (raw : String) (d : Date),
        raw ≠ "" → parse raw = some d →
        format_date parse (some raw) = some (strftime_ddmmyyyy d)) ∧
    format_date parseISO (some "2024-07-31T10:00:00") = some "31/07/2024" ∧
    format_date parseISO (some "not-a-date") = some "not-a-date" := by
  refine ⟨?_, ?_, rfl, rfl⟩
  · intro parse raw hp
    by_cases h0 : raw = ""
    · subst h0
      simp [format_date]
    · simp [format_date, h0, hp]
  · intro parse raw d h0 hp
    simp [format_date, h0, hp]

/-- C5 witness: the pass-through branch at a string the modelled parser
rejects and the reformat branch at a parsed date. -/
theorem spec_C5_witness :
    format_date parseISO (some "hello world") = some "hello world" ∧
    format_date parseISO (some "2023-01-05T00:00:00") = some (strftime_ddmmyyyy ⟨2023, 1, 5⟩) :=
  ⟨spec_C5.1 parseISO "hello world" (by decide),
   spec_C5.2.1 parseISO "2023-01-05T00:00:00" ⟨2023, 1, 5⟩ (by decide) (by decide)⟩

/-- C4 (amended).  `get_first_non_matching_value`, `get_first_word`,
`remove_substring_if_found` and `format_date` are total over their
documented domains and map missing / blank input to the empty or null
case; `concatenate_text_from_index` is total only as long as every
present `"text"` entry is a string — it returns the empty string on an
empty list and skips entries without `"text"`, but raises
`AttributeError` on a non-string `"text"` entry (see the
counterexample). -/
theorem spec_C4_amended :
    (∀ (L : String) (cs : List Cell),
        get_first_non_matching_value (⟨none⟩ :: cs) L = get_first_non_matching_value cs L) ∧
    (∀ (L : String) (cs : List Cell),
        get_first_non_matching_value (⟨some none⟩ :: cs) L = get_first_non_matching_value cs L) ∧
    get_first_word none = "" ∧
    (∀ t, pyStrip t = "" → get_first_word (some t) = "") ∧
    (∀ sub, remove_substring_if_found sub none = "") ∧
    (∀ parse, format_date parse none = none) ∧
    (∀ i, concatenate_text_from_index [] i = Except.ok "") ∧
    (∀ (l : List Cell) (i : Nat), (∀ c ∈ l, c.text ≠ some none) →
        ∃ s, concatenate_text_from_index l i = Except.ok s) := by
  refine ⟨fun L cs => rfl, fun L cs => rfl, rfl, ?_, fun sub => rfl, fun parse => rfl, ?_, ?_⟩
  · intro t ht
    simp [get_first_word, ht]
  · intro i
    simp [concatenate_text_from_index, List.drop_nil, concatenate_items, pyJoin]
  · intro l i hl
    have key : ∀ m : List Cell, (∀ c ∈ m, c.text ≠ some none) →
        ∃ parts, concatenate_items m = Except.ok parts := by
      intro m
      induction m with
      | nil => exact fun _ => ⟨[], rfl⟩
      | cons c cs ih =>
        intro hm
        rcases hct : c.text with _ | (_ | s)
        · simpa [concatenate_items, hct] using
            ih (fun c' hc' => hm c' (List.mem_cons_of_mem c hc'))
        · exact absurd hct (hm c (List.mem_cons_self c cs))
        · obtain ⟨parts, hp⟩ := ih (fun c' hc' => hm c' (List.mem_cons_of_mem c hc'))
          by_cases hs : pyStrip s ≠ ""
          · exact ⟨s :: parts, by simp [concatenate_items, hct, hs, hp]⟩
          · exact ⟨parts, by simp [concatenate_items, hct, hs, hp]⟩
    obtain ⟨parts, hp⟩ := key (l.drop i) (fun c hc => hl c (List.drop_subset i l hc))
    exact ⟨pyJoin "\n" parts, by simp [concatenate_text_from_index, hp]⟩

/-- C4 counterexample to the claim as stated: a list containing one object
whose `"text"` entry is not a string makes `concatenate_text_from_index`
raise (`obj["text"].strip()` raises `AttributeError` in the source), so
not every extractor is total on non-string input. -/
theorem spec_C4_counterexample :
    concatenate_text_from_index [⟨some none⟩] 0 = Except.error StrAttrError.attributeError := rfl

/-- C4 witness: the blank-input case of `get_first_word` and the guarded
totality of `concatenate_text_from_index` at concrete inputs. -/
theorem spec_C4_witness :
    get_first_word (some " ") = "" ∧
    (concatenate_text_from_index [⟨some (some "hola")⟩] 0).isOk = true := by
  refine ⟨spec_C4_amended.2.2.2.1 " " (by decide), ?_⟩
  obtain ⟨s, hs⟩ := spec_C4_amended.2.2.2.2.2.2.2 [⟨some (some "hola")⟩] 0 (by decide)
  rw [hs]
  rfl

lemma pyIndex_error {α : Type} {l : List α} {i : Nat} {e : BuildError}
    (h : pyIndex l i = Except.error e) : e = BuildError.indexOutOfRange := by
  unfold pyIndex at h
  split at h
  · exact Except.noConfusion h
  · injection h with h
    exact h.symm

lemma extract_vehicle_fields_error {tables : List TableData} {e : BuildError}
    (h : extract_vehicle_fields tables = Except.error e) : e = BuildError.indexOutOfRange := by
  simp only [extract_vehicle_fields] at h
  split at h
  next heq =>
    injection h with h
    exact h ▸ pyIndex_error heq
  next t0 heq0 =>
    split at h
    next heq =>
      injection h with h
      exact h ▸ pyIndex_error heq
    next row0 heqr0 =>
      split at h
      next heq =>
        injection h with h
        exact h ▸ pyIndex_error heq
      next row1 heqr1 =>
        split at h
        next heq =>
          injection h with h
          exact h ▸ pyIndex_error heq
        next row2 heqr2 =>
          exact Except.noConfusion h

lemma build_ok_elim (parse : String → Option Date) (now : String) (d : DoclingDict) (o : Order)
    (h : build_order_model parse now d = Except.ok o) :
    ∃ (vf : VehicleFields) (origin destination : StopFields) (dra : String),
      extract_vehicle_fields d.tables = Except.ok vf ∧
      format_date parse (lookup_text d.texts "#/texts/6") = some dra ∧
      o = { header := { company_name := some "SEMAT", customer_code := none,
                        shipment_id := pyOr (lookup_text d.texts "#/texts/5") "UNKNOWN",
                        available_at := (format_date parse (some now)).getD "",
                        delivery_requested_at := dra, sender_email := none,
                        number_of_stops := 2, number_of_vehicles := 1 },
            stops := [{ stop_number := 1, address := origin.address,
                        contact := some origin.contact,
                        vehicles := [{ license_plate := pyOr vf.carplate "UNKNOWN",
                                       make := pyOrStr vf.make "UNKNOWN",
                                       model := some vf.model,
                                       activity := some ActivityEnum.Collection }],
                        comments := some origin.comments },
                      { stop_number := 2, address := destination.address,
                        contact := some destination.contact,
                        vehicles := [{ license_plate := pyOr vf.carplate "UNKNOWN",
                                       make := pyOrStr vf.make "UNKNOWN",
                                       model := some vf.model,
                                       activity := some ActivityEnum.Delivery }],
                        comments := some destination.comments }] } := by
  simp only [build_order_model] at h
  split at h
  · exact Except.noConfusion h
  next vf hvf =>
    split at h
    · exact Except.noConfusion h
    next t1 ht1 =>
      split at h
      · exact Except.noConfusion h
      next origin horig =>
        split at h
        · exact Except.noConfusion h
        next t2 ht2 =>
          split at h
          · exact Except.noConfusion h
          next destination hdest =>
            split at h
            · exact Except.noConfusion h
            next dra hdra =>
              injection h with h
              exact ⟨vf, origin, destination, dra, hvf, hdra, h.symm⟩

/-- C3: when the expected tables are absent the builder fails instead of
returning a record — with the `IndexError` (the spec's
`ExtractionError`) whenever `tables[1]` is already missing, and with some
error whenever any of the three hardcoded tables is missing. -/
theorem spec_C3 (parse : String → Option Date) (now : String) (d : DoclingDict) :
    (d.tables.length ≤ 1 →
      build_order_model parse now d = Except.error BuildError.indexOutOfRange) ∧
    (d.tables.length < 3 →
      ∃ e, build_order_model parse now d = Except.error e) := by
  constructor
  · intro hlen
    have ht1 : pyIndex d.tables 1 = Except.error BuildError.indexOutOfRange := by
      unfold pyIndex
      rw [List.get?_eq_none.mpr hlen]
    cases hvf : extract_vehicle_fields d.tables with
    | error e =>
      have he := extract_vehicle_fields_error hvf
      subst he
      simp [build_order_model, hvf]
    | ok vf =>
      simp [build_order_model, hvf, ht1]
  · intro hlen
    have ht2 : pyIndex d.tables 2 = Except.error BuildError.indexOutOfRange := by
      unfold pyIndex
      rw [List.get?_eq_none.mpr (Nat.lt_succ_iff.mp hlen)]
    cases hvf : extract_vehicle_fields d.tables with
    | error e => exact ⟨e, by simp [build_order_model, hvf]⟩
    | ok vf =>
      cases ht1 : pyIndex d.tables 1 with
      | error e => exact ⟨e, by simp [build_order_model, hvf, ht1]⟩
      | ok t1 =>
        cases ho : extract_stop_fields t1.grid "Punto de Recogida:" with
        | error e => exact ⟨e, by simp [build_order_model, hvf, ht1, ho]⟩
        | ok origin =>
          exact ⟨BuildError.indexOutOfRange, by simp [build_order_model, hvf, ht1, ho, ht2]⟩

/-- C3 witness: the empty document (no `tables[1]`) makes the builder fail
with the index error. -/
theorem spec_C3_witness :
    build_order_model parseISO "2024-01-01T00:00:00" ⟨[], []⟩
      = Except.error BuildError.indexOutOfRange :=
  (spec_C3 parseISO "2024-01-01T00:00:00" ⟨[], []⟩).1 (by decide)

/-- C2: whenever the builder succeeds on a document whose `tables[0]` grid
rows 0-2 are the label/value pairs of the spec's end-to-end example, both
stops carry the single vehicle `license_plate="1234ABC"`,
`make="HYUNDAI"`, `model="I30"` — the `"Modelo:"` label and then the
extracted make are prefix-stripped from the model cell. -/
theorem spec_C2 (parse : String → Option Date) (now : String) (d : DoclingDict)
    (o : Order) (t0 : TableData)
    (h0 : d.tables.get? 0 = some t0)
    (hr0 : t0.grid.get? 0 = some [Cell.ofString "Matrícula / Bastidor:", Cell.ofString "1234ABC"])
    (hr1 : t0.grid.get? 1 = some [Cell.ofString "Marca:", Cell.ofString "HYUNDAI"])
    (hr2 : t0.grid.get? 2 = some [Cell.ofString "Modelo:", Cell.ofString "HYUNDAI I30"])
    (h : build_order_model parse now d = Except.ok o) :
    o.stops.map (fun s => s.vehicles.map (fun v => (v.license_plate, v.make, v.model)))
      = [[("1234ABC", "HYUNDAI", some "I30")], [("1234ABC", "HYUNDAI", some "I30")]] := by
  have hvf : extract_vehicle_fields d.tables
      = Except.ok { carplate := some "1234ABC", make := "HYUNDAI", model := "I30" } := by
    simp only [extract_vehicle_fields, pyIndex, h0, hr0, hr1, hr2]
    rfl
  obtain ⟨vf, origin, destination, dra, hvf', hdra, rfl⟩ := build_ok_elim parse now d o h
  rw [hvf] at hvf'
  injection hvf' with hvf'
  subst hvf'
  rfl

/-- C2 witness: the builder on `sampleDoc` together with the instantiated
vehicle fields. -/
theorem spec_C2_witness :
    build_order_model parseISO sampleNow sampleDoc = Except.ok sampleOrder ∧
    sampleOrder.stops.map (fun s => s.vehicles.map (fun v => (v.license_plate, v.make, v.model)))
      = [[("1234ABC", "HYUNDAI", some "I30")], [("1234ABC", "HYUNDAI", some "I30")]] :=
  ⟨rfl, spec_C2 parseISO sampleNow sampleDoc sampleOrder sampleTable0 rfl rfl rfl rfl rfl⟩

/-- C7: every order the builder returns has stop count equal to the length
of its stops list, exactly the stops numbered 1 (pickup) and 2 (delivery),
one vehicle per stop with activities Collection then Delivery, and both
vehicles share the same carplate, make and model. -/
theorem spec_C7 (parse : String → Option Date) (now : String) (d : DoclingDict) (o : Order)
    (h : build_order_model parse now d = Except.ok o) :
    o.header.number_of_stops = o.stops.length ∧
    o.stops.map StopInfo.stop_number = [1, 2] ∧
    o.stops.map (fun s => s.vehicles.map (fun v => v.activity))
      = [[some ActivityEnum.Collection], [some ActivityEnum.Delivery]] ∧
    ∃ plate mk mdl,
      o.stops.map (fun s => s.vehicles.map (fun v => (v.license_plate, v.make, v.model)))
        = [[(plate, mk, mdl)], [(plate, mk, mdl)]] := by
  obtain ⟨vf, origin, destination, dra, hvf, hdra, rfl⟩ := build_ok_elim parse now d o h
  exact ⟨rfl, rfl, rfl, pyOr vf.carplate "UNKNOWN", pyOrStr vf.make "UNKNOWN",
    some vf.model, rfl⟩

/-- C7 witness: the invariants instantiated on the order built from
`sampleDoc`. -/
theorem spec_C7_witness :
    sampleOrder.header.number_of_stops = sampleOrder.stops.length ∧
    sampleOrder.stops.map StopInfo.stop_number = [1, 2] := by
  have h := spec_C7 parseISO sampleNow sampleDoc sampleOrder rfl
  exact ⟨h.1, h.2.1⟩

/-- C8: calling the builder twice on the same layout tree yields
structurally equal orders in every field except the call-time
`available_at` timestamp — there is no hidden mutable state across
calls. -/
theorem spec_C8 (parse : String → Option Date) (now1 now2 : String) (d : DoclingDict) :
    (build_order_model parse now1 d).map eraseAvailableAt
      = (build_order_model parse now2 d).map eraseAvailableAt := by
  simp only [build_order_model]
  cases hvf : extract_vehicle_fields d.tables with
  | error e => rfl
  | ok vf =>
    dsimp only
    cases ht1 : pyIndex d.tables 1 with
    | error e => rfl
    | ok t1 =>
      dsimp only
      cases ho : extract_stop_fields t1.grid "Punto de Recogida:" with
      | error e => rfl
      | ok origin =>
        dsimp only
        cases ht2 : pyIndex d.tables 2 with
        | error e => rfl
        | ok t2 =>
          dsimp only
          cases hd : extract_stop_fields t2.grid "Punto de Entrega:" with
          | error e => rfl
          | ok destination =>
            dsimp only
            cases hf : format_date parse (lookup_text d.texts "#/texts/6") with
            | none => rfl
            | some dra => rfl

/-- C9 counterexample to the claim as stated: a document with no
`#/texts/5` node (and nothing else either) makes the builder fail — the
absence of the shipment-id node does not by itself guarantee success. -/
theorem spec_C9_counterexample :
    (DoclingDict.mk [{ self_ref := some "#/texts/6", text := "x" }] []).texts.all
        (fun it => it.self_ref != some "#/texts/5") = true ∧
    build_order_model parseISO "2024-01-01T00:00:00"
        ⟨[{ self_ref := some "#/texts/6", text := "x" }], []⟩
      = Except.error BuildError.indexOutOfRange :=
  ⟨rfl, rfl⟩

/-- C9 (amended): whenever no text node carries the identifier
`#/texts/5` and the builder nevertheless returns a record, that record's
`shipment_id` is the sentinel `"UNKNOWN"`; the absence of the node alone
never causes the failure. -/
theorem spec_C9_amended (parse : String → Option Date) (now : String) (d : DoclingDict)
    (o : Order)
    (h5 : ∀ it ∈ d.texts, it.self_ref ≠ some "#/texts/5")
    (h : build_order_model parse now d = Except.ok o) :
    o.header.shipment_id = "UNKNOWN" := by
  obtain ⟨vf, origin, destination, dra, hvf, hdra, rfl⟩ := build_ok_elim parse now d o h
  have hf : d.texts.find? (fun it => it.self_ref == some "#/texts/5") = none :=
    List.find?_eq_none.mpr (fun it hit => by simpa using h5 it hit)
  simp [lookup_text, hf, pyOr]

/-- C9 witness: the builder on `sampleDocNo5` succeeds and yields the
`"UNKNOWN"` sentinel. -/
theorem spec_C9_witness :
    build_order_model parseISO sampleNow sampleDocNo5 = Except.ok sampleOrderNo5 ∧
    sampleOrderNo5.header.shipment_id = "UNKNOWN" :=
  ⟨rfl, spec_C9_amended parseISO sampleNow sampleDocNo5 sampleOrderNo5 (by decide) rfl⟩

/-- C10: every order the builder returns reports `number_of_vehicles = 1`,
the length of the pickup stop's vehicle list alone, although the order
carries 2 vehicle entries across its two stops. -/
theorem spec_C10 (parse : String → Option Date) (now : String) (d : DoclingDict) (o : Order)
    (h : build_order_model parse now d = Except.ok o) :
    o.header.number_of_vehicles = 1 ∧
    (o.stops.map (fun s => s.vehicles.length)).sum = 2 ∧
    o.header.number_of_vehicles ≠ ((o.stops.map (fun s => s.vehicles.length)).sum : Int) := by
  obtain ⟨vf, origin, destination, dra, hvf, hdra, rfl⟩ := build_ok_elim parse now d o h
  refine ⟨rfl, rfl, ?_⟩
  show (1 : Int) ≠ (2 : Int)
  decide

/-- C10 witness: the vehicle counts instantiated on the order built from
`sampleDoc`. -/
theorem spec_C10_witness :
    sampleOrder.header.number_of_vehicles = 1 ∧
    (sampleOrder.stops.map (fun s => s.vehicles.length)).sum = 2 := by
  have h := spec_C10 parseISO sampleNow sampleDoc sampleOrder rfl
  exact ⟨h.1, h.2.1⟩

lemma find_eq_head_filter {α : Type} (p : α → Bool) (l : List α) :
    l.find? p = (l.filter p).head? := by
  induction l with
  | nil => rfl
  | cons a l ih =>
    cases hpa : p a
    · simp only [List.find?, List.filter, hpa, ih]
    · simp only [List.find?, List.filter, hpa, List.head?_cons]

lemma perm_find_eq {α : Type} (p : α → Bool) {l l' : List α} (hp : l.Perm l')
    (hu : (l.filter p).length ≤ 1) : l.find? p = l'.find? p := by
  rw [find_eq_head_filter, find_eq_head_filter]
  have h2 := hp.filter p
  cases hf : l.filter p with
  | nil =>
    rw [hf] at h2
    rw [List.Perm.eq_nil h2.symm]
  | cons a t =>
    rw [hf] at h2 hu
    have ht : t = [] := by
      cases t with
      | nil => rfl
      | cons b t' => simp at hu
    subst ht
    rw [← List.singleton_perm.mp h2]

lemma pairwise_filter_len_le_one {l : List TextItem}
    (hu : l.Pairwise (fun a b => a.self_ref ≠ b.self_ref)) (r : String) :
    (l.filter (fun it => it.self_ref == some r)).length ≤ 1 := by
  induction l with
  | nil => simp
  | cons a l ih =>
    rcases List.pairwise_cons.mp hu with ⟨ha, hl⟩
    by_cases hp : a.self_ref = some r
    · have hnone : l.filter (fun it => it.self_ref == some r) = [] := by
        rw [List.filter_eq_nil_iff]
        intro b hb
        simp only [beq_iff_eq]
        intro hbr
        exact ha b hb (hp.trans hbr.symm)
      rw [List.filter_cons_of_pos (by simp [hp]), hnone]
      simp
    · rw [List.filter_cons_of_neg (by simp [hp])]
      exact ih hl

/-- C6: the builder reads `shipmentId` and `deliveryRequestedAt` by exact
stable-identifier match, not ordinal position — permuting the `texts`
sequence of a tree with unique identifiers leaves its output (these two
fields included) unchanged. -/
theorem spec_C6 (parse : String → Option Date) (now : String) (tables : List TableData)
    (texts texts' : List TextItem)
    (hperm : texts.Perm texts')
    (hu : texts.Pairwise (fun a b => a.self_ref ≠ b.self_ref)) :
    build_order_model parse now ⟨texts, tables⟩
      = build_order_model parse now ⟨texts', tables⟩ := by
  have h5 : lookup_text texts "#/texts/5" = lookup_text texts' "#/texts/5" := by
    unfold lookup_text
    rw [perm_find_eq _ hperm (pairwise_filter_len_le_one hu _)]
  have h6 : lookup_text texts "#/texts/6" = lookup_text texts' "#/texts/6" := by
    unfold lookup_text
    rw [perm_find_eq _ hperm (pairwise_filter_len_le_one hu _)]
  simp only [build_order_model]
  rw [h5, h6]

/-- C6 witness: transposing the two text nodes of `sampleDoc` leaves the
built order unchanged. -/
theorem spec_C6_witness :
    build_order_model parseISO sampleNow sampleDoc
      = build_order_model parseISO sampleNow ⟨sampleTextsPerm, sampleDoc.tables⟩ :=
  spec_C6 parseISO sampleNow sampleDoc.tables sampleDoc.texts sampleTextsPerm
    (by decide) (by decide)

end OrderExtract
